import Mathlib

/-!
Shallow embedding of `pg_opendal` (src/src/lib.rs), a PostgreSQL extension
exposing OpenDAL storage operations.  Pure Rust functions are translated
directly; calls into external libraries (OpenDAL operators, the scheme
registry, `String::from_utf8`, the Tokio runtime) are modelled as explicit
behaviour parameters gathered in the `World` and `OperatorBehavior`
structures, so that every repository function stays a pure, executable
Lean definition.
-/

namespace PgOpendal

/-- JSON values, mirroring `serde_json::Value` (object fields kept as an
ordered association list; numbers restricted to the unsigned integers this
code ever produces). -/
inductive Json where
  | null
  | bool (b : Bool)
  | num (n : Nat)
  | str (s : String)
  | arr (elems : List Json)
  | obj (fields : List (String × Json))
deriving Repr, Inhabited

/-- Field lookup in a JSON object: first binding of the key, `none` for a
missing key or a non-object. -/
def Json.lookup : Json → String → Option Json
  | .obj fields, k => fields.lookup k
  | _, _ => none

/-- `serde_json::Value::as_str`-like view: the payload of a string node. -/
def Json.asString : Json → Option String
  | .str s => some s
  | _ => none

/-- Inner loop of `jsonb_to_hashmap`: walk the object fields in order,
keeping string values and failing on the first non-string value, exactly as
the Rust `for (k, v) in obj` loop does. -/
def hashmapLoop : List (String × Json) → Except String (List (String × String))
  | [] => .ok []
  | (k, v) :: rest =>
    match v with
    | .str s => (hashmapLoop rest).map (fun m => (k, s) :: m)
    | _ => .error "Config values must be strings"

/-- `jsonb_to_hashmap`: convert a JSON value into a string-to-string
mapping; non-object roots and non-string values are rejected with the
code's fixed error strings. -/
def jsonb_to_hashmap (value : Json) : Except String (List (String × String)) :=
  match value with
  | .obj obj => hashmapLoop obj
  | _ => .error "Config must be a JSON object"

/-- Error kinds of `opendal::ErrorKind`; only `NotFound` is inspected by
this code, every other kind is collapsed into `Other`. -/
inductive ErrorKind where
  | NotFound
  | Other
deriving Repr, DecidableEq, Inhabited

/-- An `opendal::Error`: its kind plus the text its `Display` produces. -/
structure OpError where
  kind : ErrorKind
  display : String
deriving Repr, DecidableEq, Inhabited

/-- Backend-native metadata (`opendal::Metadata`), as consumed by this
code: content length, file/dir flags, and an optional modification time.
A timestamp is represented by the RFC3339 text `chrono`'s `to_rfc3339`
renders for it, the only way this code ever observes one. -/
structure BackendMeta where
  content_length : Nat
  is_file : Bool
  is_dir : Bool
  last_modified : Option String
deriving Repr, DecidableEq, Inhabited

/-- A raw listing entry (`opendal::Entry`): its name and full path. -/
structure RawEntry where
  name : String
  path : String
deriving Repr, DecidableEq, Inhabited

/-- Capability flags of `opendal::Capability`, restricted to the eight
flags this code reads. -/
structure Capability where
  read : Bool
  write : Bool
  list : Bool
  stat : Bool
  delete : Bool
  copy : Bool
  rename : Bool
  create_dir : Bool
deriving Repr, DecidableEq, Inhabited

/-- The behaviour of one constructed `opendal::Operator`: the outcome of
each primitive this code invokes.  The lister is modelled as the sequence
of results its `try_next` calls would yield, in order (the stream ends at
the end of the list; an `Err` element is where `try_next` would fail). -/
structure OperatorBehavior where
  read : String → Except OpError (List Nat)
  write : String → String → Except OpError Unit
  stat : String → Except OpError BackendMeta
  delete : String → Except OpError Unit
  create_dir : String → Except OpError Unit
  copy : String → String → Except OpError Unit
  rename : String → String → Except OpError Unit
  lister : String → Except OpError (List (Except OpError RawEntry))
  capability : Capability

/-- The external environment a call runs in: the scheme registry
(`Scheme::from_str`, returning the scheme or an error display), operator
construction (`Operator::via_iter`, keyed by the resolved scheme),
`Runtime::new`, and `String::from_utf8` (the decoded text, or the error
display for invalid UTF-8). -/
structure World where
  fromStr : String → Except String String
  construct : String → List (String × String) → Except String OperatorBehavior
  runtimeNew : Except String Unit
  from_utf8 : List Nat → Except String String

/-- `create_operator`: resolve the service name against the scheme
registry, then construct the operator from the scheme and the
configuration mapping. -/
def create_operator (w : World) (service : String)
    (config : List (String × String)) : Except String OperatorBehavior :=
  match w.fromStr service with
  | .error e => .error ("Invalid service type '" ++ service ++ "': " ++ e)
  | .ok scheme => w.construct scheme config

/-- `do_read_async`: read the file and decode it as UTF-8 text.
`from_utf8` is the behaviour of Rust's `String::from_utf8` supplied by the
environment. -/
def do_read_async (from_utf8 : List Nat → Except String String)
    (op : OperatorBehavior) (path : String) : Except String String :=
  match op.read path with
  | .ok data =>
    match from_utf8 data with
    | .ok s => .ok s
    | .error e => .error ("Failed to convert data to UTF-8: " ++ e)
  | .error e => .error ("Failed to read file '" ++ path ++ "': " ++ e.display)

/-- `do_write_async`: write the content, mapping success to `true`. -/
def do_write_async (op : OperatorBehavior) (path content : String) :
    Except String Bool :=
  match op.write path content with
  | .ok _ => .ok true
  | .error e => .error ("Failed to write to '" ++ path ++ "': " ++ e.display)

/-- `do_exists_async`: stat the path; success maps to `true`, a `NotFound`
failure to `false`, any other failure to an error. -/
def do_exists_async (op : OperatorBehavior) (path : String) :
    Except String Bool :=
  match op.stat path with
  | .ok _ => .ok true
  | .error e =>
    if e.kind = ErrorKind.NotFound then .ok false
    else .error ("Failed to check existence of '" ++ path ++ "': " ++ e.display)

/-- `do_delete_async`: delete the path, mapping success to `true`. -/
def do_delete_async (op : OperatorBehavior) (path : String) :
    Except String Bool :=
  match op.delete path with
  | .ok _ => .ok true
  | .error e => .error ("Failed to delete '" ++ path ++ "': " ++ e.display)

/-- The optional `last_modified` field: inserted only when the backend
reports a modification time, holding its RFC3339 rendering. -/
def lastModifiedField (lm : Option String) : List (String × Json) :=
  match lm with
  | some t => [("last_modified", Json.str t)]
  | none => []

/-- `do_stat_async`: stat the path and build the JSON record with
`content_length`, `is_file`, `is_dir`, and `last_modified` when present. -/
def do_stat_async (op : OperatorBehavior) (path : String) :
    Except String Json :=
  match op.stat path with
  | .ok metadata =>
    .ok (Json.obj
      ([("content_length", Json.num metadata.content_length),
        ("is_file", Json.bool metadata.is_file),
        ("is_dir", Json.bool metadata.is_dir)] ++
       lastModifiedField metadata.last_modified))
  | .error e => .error ("Failed to get stat for '" ++ path ++ "': " ++ e.display)

/-- `do_create_dir_async`: create the directory, mapping success to
`true`. -/
def do_create_dir_async (op : OperatorBehavior) (path : String) :
    Except String Bool :=
  match op.create_dir path with
  | .ok _ => .ok true
  | .error e => .error ("Failed to create directory '" ++ path ++ "': " ++ e.display)

/-- `do_copy_async`: copy source to target, mapping success to `true`. -/
def do_copy_async (op : OperatorBehavior) (source target : String) :
    Except String Bool :=
  match op.copy source target with
  | .ok _ => .ok true
  | .error e =>
    .error ("Failed to copy from '" ++ source ++ "' to '" ++ target ++ "': " ++ e.display)

/-- `do_rename_async`: rename source to target, mapping success to
`true`. -/
def do_rename_async (op : OperatorBehavior) (source target : String) :
    Except String Bool :=
  match op.rename source target with
  | .ok _ => .ok true
  | .error e =>
    .error ("Failed to rename from '" ++ source ++ "' to '" ++ target ++ "': " ++ e.display)

/-- The JSON object `do_list_async` builds for one listing entry from the
entry itself and its supplementary stat metadata: `name`, `path`,
`is_file`, `is_dir`, `content_length`, and `last_modified` when the
backend reports one — all at the top level of the object. -/
def listEntryJson (entry : RawEntry) (metadata : BackendMeta) : Json :=
  Json.obj
    ([("name", Json.str entry.name),
      ("path", Json.str entry.path),
      ("is_file", Json.bool metadata.is_file),
      ("is_dir", Json.bool metadata.is_dir),
      ("content_length", Json.num metadata.content_length)] ++
     lastModifiedField metadata.last_modified)

/-- The `while let` loop of `do_list_async` over the lister's stream of
results: each `Err` from `try_next` aborts the whole call, each entry gets
a supplementary `stat` whose failure also aborts; otherwise the entry's
JSON object is appended in order. -/
def listLoop (op : OperatorBehavior) (path : String) :
    List (Except OpError RawEntry) → Except String (List Json)
  | [] => .ok []
  | item :: rest =>
    match item with
    | .error e => .error ("Failed to list contents of '" ++ path ++ "': " ++ e.display)
    | .ok entry =>
      match op.stat entry.path with
      | .error e =>
        .error ("Failed to get metadata for entry '" ++ entry.path ++ "': " ++ e.display)
      | .ok metadata =>
        (listLoop op path rest).map (fun results => listEntryJson entry metadata :: results)

/-- `do_list_async`: obtain the lister for the path, then run the
enumeration loop. -/
def do_list_async (op : OperatorBehavior) (path : String) :
    Except String (List Json) :=
  match op.lister path with
  | .error e => .error ("Failed to get lister for '" ++ path ++ "': " ++ e.display)
  | .ok items => listLoop op path items

/-- `pg_opendal_read`: parse the config, build the operator, create the
runtime, and run `do_read_async`. -/
def pg_opendal_read (w : World) (service path : String) (config : Json) :
    Except String String :=
  match jsonb_to_hashmap config with
  | .error e => .error ("Failed to parse config: " ++ e)
  | .ok config_map =>
    match create_operator w service config_map with
    | .error e => .error ("Failed to create operator: " ++ e)
    | .ok op =>
      match w.runtimeNew with
      | .error e => .error ("Failed to create Tokio runtime: " ++ e)
      | .ok _ => do_read_async w.from_utf8 op path

/-- `pg_opendal_write`: parse the config, build the operator, create the
runtime, and run `do_write_async` on the content's bytes. -/
def pg_opendal_write (w : World) (service path content : String) (config : Json) :
    Except String Bool :=
  match jsonb_to_hashmap config with
  | .error e => .error ("Failed to parse config: " ++ e)
  | .ok config_map =>
    match create_operator w service config_map with
    | .error e => .error ("Failed to create operator: " ++ e)
    | .ok op =>
      match w.runtimeNew with
      | .error e => .error ("Failed to create Tokio runtime: " ++ e)
      | .ok _ => do_write_async op path content

/-- `pg_opendal_exists`: parse the config, build the operator, create the
runtime, and run `do_exists_async`. -/
def pg_opendal_exists (w : World) (service path : String) (config : Json) :
    Except String Bool :=
  match jsonb_to_hashmap config with
  | .error e => .error ("Failed to parse config: " ++ e)
  | .ok config_map =>
    match create_operator w service config_map with
    | .error e => .error ("Failed to create operator: " ++ e)
    | .ok op =>
      match w.runtimeNew with
      | .error e => .error ("Failed to create Tokio runtime: " ++ e)
      | .ok _ => do_exists_async op path

/-- `pg_opendal_delete`: parse the config, build the operator, create the
runtime, and run `do_delete_async`. -/
def pg_opendal_delete (w : World) (service path : String) (config : Json) :
    Except String Bool :=
  match jsonb_to_hashmap config with
  | .error e => .error ("Failed to parse config: " ++ e)
  | .ok config_map =>
    match create_operator w service config_map with
    | .error e => .error ("Failed to create operator: " ++ e)
    | .ok op =>
      match w.runtimeNew with
      | .error e => .error ("Failed to create Tokio runtime: " ++ e)
      | .ok _ => do_delete_async op path

/-- `pg_opendal_stat`: parse the config, build the operator, create the
runtime, and run `do_stat_async`. -/
def pg_opendal_stat (w : World) (service path : String) (config : Json) :
    Except String Json :=
  match jsonb_to_hashmap config with
  | .error e => .error ("Failed to parse config: " ++ e)
  | .ok config_map =>
    match create_operator w service config_map with
    | .error e => .error ("Failed to create operator: " ++ e)
    | .ok op =>
      match w.runtimeNew with
      | .error e => .error ("Failed to create Tokio runtime: " ++ e)
      | .ok _ => do_stat_async op path

/-- `pg_opendal_create_dir`: parse the config, build the operator, create
the runtime, and run `do_create_dir_async`. -/
def pg_opendal_create_dir (w : World) (service path : String) (config : Json) :
    Except String Bool :=
  match jsonb_to_hashmap config with
  | .error e => .error ("Failed to parse config: " ++ e)
  | .ok config_map =>
    match create_operator w service config_map with
    | .error e => .error ("Failed to create operator: " ++ e)
    | .ok op =>
      match w.runtimeNew with
      | .error e => .error ("Failed to create Tokio runtime: " ++ e)
      | .ok _ => do_create_dir_async op path

/-- `pg_opendal_copy`: parse the config, build the operator, create the
runtime, and run `do_copy_async`. -/
def pg_opendal_copy (w : World) (service source target : String) (config : Json) :
    Except String Bool :=
  match jsonb_to_hashmap config with
  | .error e => .error ("Failed to parse config: " ++ e)
  | .ok config_map =>
    match create_operator w service config_map with
    | .error e => .error ("Failed to create operator: " ++ e)
    | .ok op =>
      match w.runtimeNew with
      | .error e => .error ("Failed to create Tokio runtime: " ++ e)
      | .ok _ => do_copy_async op source target

/-- `pg_opendal_rename`: parse the config, build the operator, create the
runtime, and run `do_rename_async`. -/
def pg_opendal_rename (w : World) (service source target : String) (config : Json) :
    Except String Bool :=
  match jsonb_to_hashmap config with
  | .error e => .error ("Failed to parse config: " ++ e)
  | .ok config_map =>
    match create_operator w service config_map with
    | .error e => .error ("Failed to create operator: " ++ e)
    | .ok op =>
      match w.runtimeNew with
      | .error e => .error ("Failed to create Tokio runtime: " ++ e)
      | .ok _ => do_rename_async op source target

/-- `pg_opendal_list`: parse the config, build the operator, create the
runtime, and run `do_list_async`. -/
def pg_opendal_list (w : World) (service path : String) (config : Json) :
    Except String (List Json) :=
  match jsonb_to_hashmap config with
  | .error e => .error ("Failed to parse config: " ++ e)
  | .ok config_map =>
    match create_operator w service config_map with
    | .error e => .error ("Failed to create operator: " ++ e)
    | .ok op =>
      match w.runtimeNew with
      | .error e => .error ("Failed to create Tokio runtime: " ++ e)
      | .ok _ => do_list_async op path

/-- The capability JSON object: the eight flags of the operator's
declared capability set. -/
def capabilityJson (c : Capability) : Json :=
  Json.obj
    [("read", Json.bool c.read),
     ("write", Json.bool c.write),
     ("list", Json.bool c.list),
     ("stat", Json.bool c.stat),
     ("delete", Json.bool c.delete),
     ("copy", Json.bool c.copy),
     ("rename", Json.bool c.rename),
     ("create_dir", Json.bool c.create_dir)]

/-- `pg_opendal_capability`: parse the config, build the operator, and
report its full capability set (no runtime, no I/O against stored
data). -/
def pg_opendal_capability (w : World) (service : String) (config : Json) :
    Except String Json :=
  match jsonb_to_hashmap config with
  | .error e => .error ("Failed to parse config: " ++ e)
  | .ok config_map =>
    match create_operator w service config_map with
    | .error e => .error ("Failed to create operator: " ++ e)
    | .ok op => .ok (capabilityJson op.capability)

/-! ### Concrete fixtures used by witnesses and counterexamples -/

/-- A sample RFC3339 rendering of a modification time. -/
def tsSample : String := "2024-01-02T03:04:05+00:00"

/-- Metadata of a small file whose backend reports a modification time. -/
def metaFile : BackendMeta :=
  { content_length := 3, is_file := true, is_dir := false, last_modified := some tsSample }

/-- Metadata of a file whose backend reports no modification time. -/
def metaNoTime : BackendMeta :=
  { content_length := 5, is_file := true, is_dir := false, last_modified := none }

/-- A not-found backend error. -/
def errNotFound : OpError := { kind := ErrorKind.NotFound, display := "NotFound" }

/-- A backend error that is not not-found. -/
def errPerm : OpError := { kind := ErrorKind.Other, display := "PermissionDenied" }

/-- A pure-ASCII model of `String::from_utf8` usable as a concrete
environment: decodes byte lists below 128 and rejects the rest. -/
def asciiDecode (bytes : List Nat) : Except String String :=
  if bytes.all (fun b => b < 128)
  then .ok (String.mk (bytes.map Char.ofNat))
  else .error "invalid utf-8 sequence"

/-- An operator on which every primitive succeeds; its single listing
entry is `dir/a.txt` and every stat reports `metaFile`. -/
def opHappy : OperatorBehavior where
  read := fun _ => .ok [104, 105]
  write := fun _ _ => .ok ()
  stat := fun _ => .ok metaFile
  delete := fun _ => .ok ()
  create_dir := fun _ => .ok ()
  copy := fun _ _ => .ok ()
  rename := fun _ _ => .ok ()
  lister := fun _ => .ok [.ok { name := "a.txt", path := "dir/a.txt" }]
  capability :=
    { read := true, write := true, list := true, stat := true,
      delete := true, copy := true, rename := true, create_dir := true }

/-- Like `opHappy`, but the backend reports no modification time. -/
def opNoTime : OperatorBehavior := { opHappy with stat := fun _ => .ok metaNoTime }

/-- Like `opHappy`, but every stat fails with not-found. -/
def opMissing : OperatorBehavior := { opHappy with stat := fun _ => .error errNotFound }

/-- Like `opHappy`, but read, stat and the lister fail with a
permission error. -/
def opBroken : OperatorBehavior :=
  { opHappy with
    read := fun _ => .error errPerm
    stat := fun _ => .error errPerm
    lister := fun _ => .error errPerm }

/-- Like `opHappy`, but the lister's stream fails on its second
`try_next` call. -/
def opListMidFail : OperatorBehavior :=
  { opHappy with
    lister := fun _ => .ok [.ok { name := "a.txt", path := "dir/a.txt" }, .error errPerm] }

/-- A concrete environment: one known scheme `memory`, construction
always yielding `opHappy`, a runtime that starts, and ASCII decoding. -/
def worldOk : World where
  fromStr := fun s => if s = "memory" then .ok "memory" else .error "unsupported scheme"
  construct := fun _ _ => .ok opHappy
  runtimeNew := .ok ()
  from_utf8 := asciiDecode

/-- `worldOk` with construction yielding a given operator instead. -/
def worldWith (op : OperatorBehavior) : World := { worldOk with construct := fun _ _ => .ok op }

/-! ### Helper lemmas -/

/-- Full characterization of the `jsonb_to_hashmap` loop: it succeeds with
the pointwise key/value extraction exactly when every value is a string,
and otherwise fails with the fixed message. -/
theorem hashmapLoop_eq (fields : List (String × Json)) :
    hashmapLoop fields =
      if fields.all (fun kv => kv.2.asString.isSome)
      then .ok (fields.map fun kv => (kv.1, kv.2.asString.getD ""))
      else .error "Config values must be strings" := by
  induction fields with
  | nil => rfl
  | cons kv rest ih =>
    obtain ⟨k, v⟩ := kv
    cases v
    case str s =>
      have hstep : hashmapLoop ((k, Json.str s) :: rest) =
          (hashmapLoop rest).map (fun m => (k, s) :: m) := rfl
      rw [hstep, ih]
      have hhead : Json.asString (Json.str s) = some s := rfl
      cases hall : rest.all fun kv => kv.2.asString.isSome <;>
        simp [hhead, hall, Except.map]
    all_goals simp [hashmapLoop, Json.asString]

/-- A lister stream item on which the listing loop must abort: either
`try_next` itself fails, or the supplementary stat on the entry fails. -/
def itemFails (op : OperatorBehavior) (item : Except OpError RawEntry) : Bool :=
  match item with
  | .error _ => true
  | .ok entry =>
    match op.stat entry.path with
    | .error _ => true
    | .ok _ => false

/-- Invariant of a successful listing loop: one output per stream item,
every stream item succeeded (including its supplementary stat), and each
output is the entry object built from its raw entry and stat metadata. -/
theorem listLoop_ok_inv (op : OperatorBehavior) (path : String) :
    ∀ (items : List (Except OpError RawEntry)) (entries : List Json),
      listLoop op path items = .ok entries →
      entries.length = items.length ∧
      (∀ item ∈ items, itemFails op item = false) ∧
      ∀ j ∈ entries, ∃ (entry : RawEntry) (m : BackendMeta),
        op.stat entry.path = .ok m ∧ j = listEntryJson entry m := by
  intro items
  induction items with
  | nil =>
    intro entries h
    simp only [listLoop] at h
    injection h with h2
    subst h2
    simp
  | cons item rest ih =>
    intro entries h
    cases item with
    | error e =>
      simp only [listLoop] at h
      exact Except.noConfusion h
    | ok entry =>
      simp only [listLoop] at h
      cases hstat : op.stat entry.path with
      | error e =>
        rw [hstat] at h
        exact Except.noConfusion h
      | ok m =>
        rw [hstat] at h
        cases hrest : listLoop op path rest with
        | error e =>
          rw [hrest] at h
          exact Except.noConfusion h
        | ok restEntries =>
          rw [hrest] at h
          simp only [Except.map] at h
          injection h with h2
          subst h2
          obtain ⟨hlen, hitems, hshape⟩ := ih restEntries hrest
          refine ⟨by simp [hlen], ?_, ?_⟩
          · intro it hit
            rcases List.mem_cons.mp hit with hhd | htl
            · subst hhd
              simp [itemFails, hstat]
            · exact hitems it htl
          · intro j hj
            rcases List.mem_cons.mp hj with hhd | htl
            · exact ⟨entry, m, hstat, hhd⟩
            · exact hshape j htl

/-- If any stream item fails (itself or its supplementary stat), the
listing loop returns an error. -/
theorem listLoop_error_of_fail (op : OperatorBehavior) (path : String) :
    ∀ items : List (Except OpError RawEntry),
      (∃ item ∈ items, itemFails op item = true) →
      ∃ msg, listLoop op path items = .error msg := by
  intro items
  induction items with
  | nil => rintro ⟨item, hmem, _⟩; exact absurd hmem (List.not_mem_nil item)
  | cons item rest ih =>
    rintro ⟨bad, hmem, hbad⟩
    rcases List.mem_cons.mp hmem with hhd | htl
    · subst hhd
      cases bad with
      | error e => exact ⟨_, rfl⟩
      | ok entry =>
        simp only [itemFails] at hbad
        cases hstat : op.stat entry.path with
        | error e =>
          exact ⟨"Failed to get metadata for entry '" ++ entry.path ++ "': " ++ e.display,
            by simp only [listLoop, hstat]⟩
        | ok m =>
          rw [hstat] at hbad
          exact absurd hbad (by simp)
    · obtain ⟨msg, hmsg⟩ := ih ⟨bad, htl, hbad⟩
      cases item with
      | error e => exact ⟨_, rfl⟩
      | ok entry =>
        cases hstat : op.stat entry.path with
        | error e =>
          exact ⟨"Failed to get metadata for entry '" ++ entry.path ++ "': " ++ e.display,
            by simp only [listLoop, hstat]⟩
        | ok m =>
          refine ⟨msg, ?_⟩
          simp only [listLoop, hstat, hmsg, Except.map]

/-- Field lookups on the object the listing builds for one entry: name
and path beside the metadata fields, all flat, and no `metadata` key. -/
theorem listEntryJson_lookup (entry : RawEntry) (m : BackendMeta) :
    (listEntryJson entry m).lookup "name" = some (Json.str entry.name) ∧
    (listEntryJson entry m).lookup "path" = some (Json.str entry.path) ∧
    (listEntryJson entry m).lookup "is_file" = some (Json.bool m.is_file) ∧
    (listEntryJson entry m).lookup "is_dir" = some (Json.bool m.is_dir) ∧
    (listEntryJson entry m).lookup "content_length" = some (Json.num m.content_length) ∧
    (listEntryJson entry m).lookup "last_modified" = m.last_modified.map Json.str ∧
    (listEntryJson entry m).lookup "metadata" = none := by
  cases hlm : m.last_modified <;>
    simp [listEntryJson, Json.lookup, lastModifiedField, hlm, List.lookup]

/-! ### Claims -/

/-- C2, counterexample: the code's error messages are the fixed strings
`Config must be a JSON object` and `Config values must be strings`; the
latter does not name the offending key (here `q` does not even occur in
the message), contradicting the claimed messages `root is not an object`
and `value for key K is not a string`. -/
theorem claim_c2_counterexample :
    jsonb_to_hashmap Json.null = .error "Config must be a JSON object" ∧
    "Config must be a JSON object" ≠ "root is not an object" ∧
    jsonb_to_hashmap (Json.obj [("q", Json.num 5)]) =
      .error "Config values must be strings" ∧
    'q' ∉ ("Config values must be strings").data ∧
    "Config values must be strings" ≠ "value for key q is not a string" :=
  ⟨rfl, by decide, rfl, by decide, by decide⟩

/-- C2 (amended): config resolution of a non-object root fails with the
fixed message `Config must be a JSON object`, and of an object containing
a non-string value with the fixed message `Config values must be strings`;
neither message names the offending key. -/
theorem claim_c2 (j : Json) :
    ((∀ fields, j ≠ Json.obj fields) →
      jsonb_to_hashmap j = .error "Config must be a JSON object") ∧
    (∀ fields, j = Json.obj fields →
      (fields.all fun kv => kv.2.asString.isSome) = false →
      jsonb_to_hashmap j = .error "Config values must be strings") := by
  constructor
  · intro h
    cases j
    case obj fields => exact absurd rfl (h fields)
    all_goals rfl
  · intro fields hj hall
    subst hj
    have hj2 : jsonb_to_hashmap (Json.obj fields) = hashmapLoop fields := rfl
    rw [hj2, hashmapLoop_eq, hall]
    simp

/-- C2, witness: a non-object root and an object with a boolean value
produce the two fixed messages. -/
theorem claim_c2_witness :
    jsonb_to_hashmap (Json.arr []) = .error "Config must be a JSON object" ∧
    jsonb_to_hashmap (Json.obj [("k", Json.bool true)]) =
      .error "Config values must be strings" :=
  ⟨(claim_c2 (Json.arr [])).1 (fun _ h => Json.noConfusion h),
   (claim_c2 (Json.obj [("k", Json.bool true)])).2 _ rfl rfl⟩

/-- C8: config resolution succeeds exactly when the value is an object
whose every value is a string, and then produces precisely the pointwise
key/value mapping of the object's fields, in order, nothing added or
dropped. -/
theorem claim_c8 (j : Json) :
    ((∃ m, jsonb_to_hashmap j = .ok m) ↔
      ∃ fields, j = Json.obj fields ∧ ∀ kv ∈ fields, (kv.2.asString).isSome) ∧
    (∀ m, jsonb_to_hashmap j = .ok m →
      ∃ fields, j = Json.obj fields ∧
        m = fields.map fun kv => (kv.1, kv.2.asString.getD "")) := by
  cases j
  case obj fields =>
    have hj : jsonb_to_hashmap (Json.obj fields) = hashmapLoop fields := rfl
    rw [hj, hashmapLoop_eq]
    by_cases hall : (fields.all fun kv => kv.2.asString.isSome) = true
    · rw [if_pos hall]
      refine ⟨⟨fun _ => ⟨fields, rfl, ?_⟩, fun _ => ⟨_, rfl⟩⟩, fun m hm => ⟨fields, rfl, ?_⟩⟩
      · exact fun kv hkv => List.all_eq_true.mp hall kv hkv
      · exact (Except.ok.inj hm).symm
    · rw [if_neg hall]
      refine ⟨⟨fun h => absurd h ?_, ?_⟩, fun m hm => Except.noConfusion hm⟩
      · rintro ⟨m, hm⟩
        exact Except.noConfusion hm
      · rintro ⟨fields2, hf, hforall⟩
        injection hf with h
        subst h
        exact absurd (List.all_eq_true.mpr fun kv hkv => hforall kv hkv) hall
  all_goals
    refine ⟨⟨fun h => ?_, fun h => ?_⟩, fun m hm => Except.noConfusion hm⟩
  all_goals
    first
    | (obtain ⟨m, hm⟩ := h; exact absurd hm (fun hc => Except.noConfusion hc))
    | (obtain ⟨fields, hf, _⟩ := h; exact Json.noConfusion hf)

/-- C8, witness: the repo's own test object resolves to its pointwise
mapping. -/
theorem claim_c8_witness :
    ∃ fields, Json.obj [("bucket", Json.str "my-bucket")] = Json.obj fields ∧
      [("bucket", "my-bucket")] =
        fields.map fun kv => (kv.1, kv.2.asString.getD "") :=
  (claim_c8 (Json.obj [("bucket", Json.str "my-bucket")])).2
    [("bucket", "my-bucket")] rfl

/-- C10: the empty JSON object is accepted by config resolution, which
yields the empty mapping; with it, a call proceeds past the
config-validation stage, its outcome determined by operator construction
and the backend alone (shown for `stat`). -/
theorem claim_c10 :
    jsonb_to_hashmap (Json.obj []) = .ok [] ∧
    (∀ (w : World) (service path : String) (op : OperatorBehavior),
      create_operator w service [] = .ok op → w.runtimeNew = .ok () →
      pg_opendal_stat w service path (Json.obj []) = do_stat_async op path) ∧
    (∀ (w : World) (service path e : String),
      create_operator w service [] = .error e →
      pg_opendal_stat w service path (Json.obj []) =
        .error ("Failed to create operator: " ++ e)) := by
  refine ⟨rfl, ?_, ?_⟩
  · intro w service path op hop hrt
    simp [pg_opendal_stat, jsonb_to_hashmap, hashmapLoop, hop, hrt]
  · intro w service path e he
    simp [pg_opendal_stat, jsonb_to_hashmap, hashmapLoop, he]

/-- C10, witness: with the concrete environment, `stat` on an empty
config reaches the backend. -/
theorem claim_c10_witness :
    pg_opendal_stat worldOk "memory" "p" (Json.obj []) = do_stat_async opHappy "p" :=
  claim_c10.2.1 worldOk "memory" "p" opHappy rfl rfl

/-- C3: `exists` is stat with a not-found outcome mapped to `false`:
a successful stat yields `true`, a `NotFound` failure yields `false`, any
other failure propagates as an error; and the outcome depends on nothing
but the operator's stat behaviour (no other primitive is consulted). -/
theorem claim_c3 (op : OperatorBehavior) (path : String) :
    (∀ m, op.stat path = .ok m → do_exists_async op path = .ok true) ∧
    (∀ e, op.stat path = .error e → e.kind = ErrorKind.NotFound →
      do_exists_async op path = .ok false) ∧
    (∀ e, op.stat path = .error e → e.kind ≠ ErrorKind.NotFound →
      do_exists_async op path =
        .error ("Failed to check existence of '" ++ path ++ "': " ++ e.display)) ∧
    (∀ op2 : OperatorBehavior, op2.stat = op.stat →
      do_exists_async op2 path = do_exists_async op path) := by
  refine ⟨?_, ?_, ?_, ?_⟩
  · intro m hm
    simp [do_exists_async, hm]
  · intro e he hk
    simp [do_exists_async, he, hk]
  · intro e he hk
    simp [do_exists_async, he, hk]
  · intro op2 hs
    simp [do_exists_async, hs]

/-- C3, witness: applied to a present file, a missing file, and a
permission failure, plus a stat-agreeing operator pair. -/
theorem claim_c3_witness :
    do_exists_async opHappy "p" = .ok true ∧
    do_exists_async opMissing "p" = .ok false ∧
    do_exists_async opBroken "p" =
      .error ("Failed to check existence of 'p': " ++ errPerm.display) ∧
    do_exists_async opNoTime "q" = do_exists_async opNoTime "q" :=
  ⟨(claim_c3 opHappy "p").1 metaFile rfl,
   (claim_c3 opMissing "p").2.1 errNotFound rfl rfl,
   (claim_c3 opBroken "p").2.2.1 errPerm rfl (by decide),
   (claim_c3 opNoTime "q").2.2.2 opNoTime rfl⟩

/-- C7: `read` returns the decoded text when the backend read succeeds
and the bytes decode as UTF-8, an encoding error when they do not, and a
backend I/O error when the read itself fails. -/
theorem claim_c7 (from_utf8 : List Nat → Except String String)
    (op : OperatorBehavior) (path : String) :
    (∀ data s, op.read path = .ok data → from_utf8 data = .ok s →
      do_read_async from_utf8 op path = .ok s) ∧
    (∀ data e, op.read path = .ok data → from_utf8 data = .error e →
      do_read_async from_utf8 op path =
        .error ("Failed to convert data to UTF-8: " ++ e)) ∧
    (∀ e, op.read path = .error e →
      do_read_async from_utf8 op path =
        .error ("Failed to read file '" ++ path ++ "': " ++ e.display)) := by
  refine ⟨?_, ?_, ?_⟩
  · intro data s hd hs
    simp [do_read_async, hd, hs]
  · intro data e hd he
    simp [do_read_async, hd, he]
  · intro e he
    simp [do_read_async, he]

/-- C7, witness: ASCII bytes decode to their text, a high byte trips the
decoder, and a failing backend read propagates. -/
theorem claim_c7_witness :
    do_read_async asciiDecode opHappy "p" = .ok "hi" ∧
    do_read_async asciiDecode { opHappy with read := fun _ => .ok [200] } "p" =
      .error ("Failed to convert data to UTF-8: " ++ "invalid utf-8 sequence") ∧
    do_read_async asciiDecode opBroken "p" =
      .error ("Failed to read file 'p': " ++ errPerm.display) :=
  ⟨(claim_c7 asciiDecode opHappy "p").1 [104, 105] "hi" rfl rfl,
   (claim_c7 asciiDecode { opHappy with read := fun _ => .ok [200] } "p").2.1
     [200] "invalid utf-8 sequence" rfl rfl,
   (claim_c7 asciiDecode opBroken "p").2.2 errPerm rfl⟩

/-- C6: a successful `stat` yields a record carrying the backend's
content length, file flag and directory flag verbatim, and a
`last_modified` field holding the RFC3339 text exactly when the backend
reports a modification time; with none reported the field is absent and
the call still succeeds. -/
theorem claim_c6 (op : OperatorBehavior) (path : String) :
    ∀ m, op.stat path = .ok m →
      ∃ j, do_stat_async op path = .ok j ∧
        j.lookup "content_length" = some (Json.num m.content_length) ∧
        j.lookup "is_file" = some (Json.bool m.is_file) ∧
        j.lookup "is_dir" = some (Json.bool m.is_dir) ∧
        j.lookup "last_modified" = m.last_modified.map Json.str := by
  intro m hm
  simp only [do_stat_async, hm]
  refine ⟨_, rfl, ?_, ?_, ?_, ?_⟩ <;>
    cases hlm : m.last_modified <;>
      simp [Json.lookup, lastModifiedField, hlm, List.lookup]

/-- C6, witness: applied to a backend reporting a modification time and
to one reporting none. -/
theorem claim_c6_witness :
    (∃ j, do_stat_async opHappy "p" = .ok j ∧
      j.lookup "content_length" = some (Json.num metaFile.content_length) ∧
      j.lookup "is_file" = some (Json.bool metaFile.is_file) ∧
      j.lookup "is_dir" = some (Json.bool metaFile.is_dir) ∧
      j.lookup "last_modified" = metaFile.last_modified.map Json.str) ∧
    (∃ j, do_stat_async opNoTime "p" = .ok j ∧
      j.lookup "content_length" = some (Json.num metaNoTime.content_length) ∧
      j.lookup "is_file" = some (Json.bool metaNoTime.is_file) ∧
      j.lookup "is_dir" = some (Json.bool metaNoTime.is_dir) ∧
      j.lookup "last_modified" = metaNoTime.last_modified.map Json.str) :=
  ⟨claim_c6 opHappy "p" metaFile rfl, claim_c6 opNoTime "p" metaNoTime rfl⟩

/-- C9: `capability` succeeds whenever config resolution and operator
construction succeed, returning the backend's eight declared flags
verbatim; and every failure stems from config resolution or operator
construction. -/
theorem claim_c9 (w : World) (service : String) (config : Json) :
    (∀ cfg op, jsonb_to_hashmap config = .ok cfg →
      create_operator w service cfg = .ok op →
      ∃ j, pg_opendal_capability w service config = .ok j ∧
        j.lookup "read" = some (Json.bool op.capability.read) ∧
        j.lookup "write" = some (Json.bool op.capability.write) ∧
        j.lookup "list" = some (Json.bool op.capability.list) ∧
        j.lookup "stat" = some (Json.bool op.capability.stat) ∧
        j.lookup "delete" = some (Json.bool op.capability.delete) ∧
        j.lookup "copy" = some (Json.bool op.capability.copy) ∧
        j.lookup "rename" = some (Json.bool op.capability.rename) ∧
        j.lookup "create_dir" = some (Json.bool op.capability.create_dir)) ∧
    (∀ err, pg_opendal_capability w service config = .error err →
      (∃ e, jsonb_to_hashmap config = .error e) ∨
      (∃ cfg e, jsonb_to_hashmap config = .ok cfg ∧
        create_operator w service cfg = .error e)) := by
  constructor
  · intro cfg op hcfg hop
    refine ⟨capabilityJson op.capability, ?_, ?_, ?_, ?_, ?_, ?_, ?_, ?_, ?_⟩ <;>
      simp [pg_opendal_capability, hcfg, hop, capabilityJson, Json.lookup, List.lookup]
  · intro err herr
    cases hcfg : jsonb_to_hashmap config with
    | error e => exact Or.inl ⟨e, rfl⟩
    | ok cfg =>
      cases hop : create_operator w service cfg with
      | error e => exact Or.inr ⟨cfg, e, rfl, hop⟩
      | ok op =>
        have hok : pg_opendal_capability w service config =
            .ok (capabilityJson op.capability) := by
          simp [pg_opendal_capability, hcfg, hop]
        rw [hok] at herr
        exact Except.noConfusion herr

/-- C9, witness: the concrete environment reports `opHappy`'s eight
flags, applied through the success branch of the claim. -/
theorem claim_c9_witness :
    ∃ j, pg_opendal_capability worldOk "memory" (Json.obj []) = .ok j ∧
      j.lookup "read" = some (Json.bool opHappy.capability.read) ∧
      j.lookup "write" = some (Json.bool opHappy.capability.write) ∧
      j.lookup "list" = some (Json.bool opHappy.capability.list) ∧
      j.lookup "stat" = some (Json.bool opHappy.capability.stat) ∧
      j.lookup "delete" = some (Json.bool opHappy.capability.delete) ∧
      j.lookup "copy" = some (Json.bool opHappy.capability.copy) ∧
      j.lookup "rename" = some (Json.bool opHappy.capability.rename) ∧
      j.lookup "create_dir" = some (Json.bool opHappy.capability.create_dir) :=
  (claim_c9 worldOk "memory" (Json.obj [])).1 [] opHappy rfl rfl

/-- C1, counterexample: a successful listing whose (single) element
carries no `metadata` field at all — the listing objects are flat, with
the metadata fields as direct siblings of `name` and `path`, not nested
under a `metadata` record as claimed. -/
theorem claim_c1_counterexample :
    ¬ ∀ (op : OperatorBehavior) (path : String) (entries : List Json),
        do_list_async op path = .ok entries →
        ∀ j ∈ entries, (j.lookup "metadata").isSome := by
  intro h
  have hrun : do_list_async opHappy "dir" =
      .ok [listEntryJson { name := "a.txt", path := "dir/a.txt" } metaFile] := rfl
  have hj := h opHappy "dir" _ hrun
    (listEntryJson { name := "a.txt", path := "dir/a.txt" } metaFile) (by simp)
  rw [(listEntryJson_lookup { name := "a.txt", path := "dir/a.txt" } metaFile).2.2.2.2.2.2] at hj
  simp at hj

/-- C1 (amended): each element of a successful listing is a flat object
whose `name` and `path` sit directly beside the metadata fields
(`is_file`, `is_dir`, `content_length`, and `last_modified` exactly when
the backend reports a time), all drawn from the supplementary stat on the
entry's path; no nested `metadata` record exists. -/
theorem claim_c1 (op : OperatorBehavior) (path : String) (entries : List Json) :
    do_list_async op path = .ok entries →
    ∀ j ∈ entries, ∃ (entry : RawEntry) (m : BackendMeta),
      op.stat entry.path = .ok m ∧
      j.lookup "name" = some (Json.str entry.name) ∧
      j.lookup "path" = some (Json.str entry.path) ∧
      j.lookup "is_file" = some (Json.bool m.is_file) ∧
      j.lookup "is_dir" = some (Json.bool m.is_dir) ∧
      j.lookup "content_length" = some (Json.num m.content_length) ∧
      j.lookup "last_modified" = m.last_modified.map Json.str ∧
      j.lookup "metadata" = none := by
  intro h j hj
  unfold do_list_async at h
  cases hl : op.lister path with
  | error e =>
    rw [hl] at h
    exact Except.noConfusion h
  | ok items =>
    rw [hl] at h
    obtain ⟨-, -, hshape⟩ := listLoop_ok_inv op path items entries h
    obtain ⟨entry, m, hstat, hje⟩ := hshape j hj
    subst hje
    obtain ⟨h1, h2, h3, h4, h5, h6, h7⟩ := listEntryJson_lookup entry m
    exact ⟨entry, m, hstat, h1, h2, h3, h4, h5, h6, h7⟩

/-- C1, witness: the concrete backend's one-entry listing satisfies the
amended shape. -/
theorem claim_c1_witness :
    ∃ (entry : RawEntry) (m : BackendMeta),
      opHappy.stat entry.path = .ok m ∧
      (listEntryJson { name := "a.txt", path := "dir/a.txt" } metaFile).lookup "name" =
        some (Json.str entry.name) ∧
      (listEntryJson { name := "a.txt", path := "dir/a.txt" } metaFile).lookup "path" =
        some (Json.str entry.path) ∧
      (listEntryJson { name := "a.txt", path := "dir/a.txt" } metaFile).lookup "is_file" =
        some (Json.bool m.is_file) ∧
      (listEntryJson { name := "a.txt", path := "dir/a.txt" } metaFile).lookup "is_dir" =
        some (Json.bool m.is_dir) ∧
      (listEntryJson { name := "a.txt", path := "dir/a.txt" } metaFile).lookup "content_length" =
        some (Json.num m.content_length) ∧
      (listEntryJson { name := "a.txt", path := "dir/a.txt" } metaFile).lookup "last_modified" =
        m.last_modified.map Json.str ∧
      (listEntryJson { name := "a.txt", path := "dir/a.txt" } metaFile).lookup "metadata" =
        none :=
  claim_c1 opHappy "dir" [listEntryJson { name := "a.txt", path := "dir/a.txt" } metaFile]
    rfl (listEntryJson { name := "a.txt", path := "dir/a.txt" } metaFile) (by simp)

/-- C5: a failing lister aborts the call with its error; given the
lister's stream, any failing item (its own failure or its supplementary
stat's) makes the whole call an error — which carries no entries — and a
successful call accounts for every stream item, none of which failed. -/
theorem claim_c5 (op : OperatorBehavior) (path : String) :
    (∀ e, op.lister path = .error e →
      do_list_async op path =
        .error ("Failed to get lister for '" ++ path ++ "': " ++ e.display)) ∧
    (∀ items, op.lister path = .ok items →
      ((∃ item ∈ items, itemFails op item = true) →
        ∃ msg, do_list_async op path = .error msg) ∧
      (∀ entries, do_list_async op path = .ok entries →
        entries.length = items.length ∧
        ∀ item ∈ items, itemFails op item = false)) := by
  constructor
  · intro e he
    simp [do_list_async, he]
  · intro items hitems
    constructor
    · intro hbad
      obtain ⟨msg, hmsg⟩ := listLoop_error_of_fail op path items hbad
      exact ⟨msg, by simp [do_list_async, hitems, hmsg]⟩
    · intro entries hok
      rw [do_list_async, hitems] at hok
      obtain ⟨hlen, hall, -⟩ := listLoop_ok_inv op path items entries hok
      exact ⟨hlen, hall⟩

/-- C5, witness: a failing lister, a stream failing mid-enumeration, and
a fully successful one-entry listing. -/
theorem claim_c5_witness :
    do_list_async opBroken "dir" =
      .error ("Failed to get lister for 'dir': " ++ errPerm.display) ∧
    (∃ msg, do_list_async opListMidFail "dir" = .error msg) ∧
    ([listEntryJson { name := "a.txt", path := "dir/a.txt" } metaFile].length =
      ([Except.ok { name := "a.txt", path := "dir/a.txt" }] :
        List (Except OpError RawEntry)).length ∧
     ∀ item ∈ ([Except.ok { name := "a.txt", path := "dir/a.txt" }] :
        List (Except OpError RawEntry)),
       itemFails opHappy item = false) :=
  ⟨(claim_c5 opBroken "dir").1 errPerm rfl,
   ((claim_c5 opListMidFail "dir").2
       [.ok { name := "a.txt", path := "dir/a.txt" }, .error errPerm] rfl).1
     ⟨.error errPerm, by simp, rfl⟩,
   ((claim_c5 opHappy "dir").2
       [.ok { name := "a.txt", path := "dir/a.txt" }] rfl).2
     [listEntryJson { name := "a.txt", path := "dir/a.txt" } metaFile] rfl⟩

/-- C4: a configuration whose root is not an object or that holds a
non-string value, and likewise a service name the scheme registry
rejects, make every one of the ten operations fail with the corresponding
wrapped error — an outcome fixed by the config and service alone,
independent of the construction function and of any operator behaviour,
so no operator call or backend I/O can have occurred. -/
theorem claim_c4 (w : World) (service path source target content : String)
    (config : Json) :
    (∀ e, jsonb_to_hashmap config = .error e →
      pg_opendal_read w service path config = .error ("Failed to parse config: " ++ e) ∧
      pg_opendal_write w service path content config = .error ("Failed to parse config: " ++ e) ∧
      pg_opendal_exists w service path config = .error ("Failed to parse config: " ++ e) ∧
      pg_opendal_delete w service path config = .error ("Failed to parse config: " ++ e) ∧
      pg_opendal_stat w service path config = .error ("Failed to parse config: " ++ e) ∧
      pg_opendal_create_dir w service path config = .error ("Failed to parse config: " ++ e) ∧
      pg_opendal_copy w service source target config = .error ("Failed to parse config: " ++ e) ∧
      pg_opendal_rename w service source target config = .error ("Failed to parse config: " ++ e) ∧
      pg_opendal_list w service path config = .error ("Failed to parse config: " ++ e) ∧
      pg_opendal_capability w service config = .error ("Failed to parse config: " ++ e)) ∧
    (∀ cfg e, jsonb_to_hashmap config = .ok cfg → w.fromStr service = .error e →
      pg_opendal_read w service path config =
        .error ("Failed to create operator: " ++
          ("Invalid service type '" ++ service ++ "': " ++ e)) ∧
      pg_opendal_write w service path content config =
        .error ("Failed to create operator: " ++
          ("Invalid service type '" ++ service ++ "': " ++ e)) ∧
      pg_opendal_exists w service path config =
        .error ("Failed to create operator: " ++
          ("Invalid service type '" ++ service ++ "': " ++ e)) ∧
      pg_opendal_delete w service path config =
        .error ("Failed to create operator: " ++
          ("Invalid service type '" ++ service ++ "': " ++ e)) ∧
      pg_opendal_stat w service path config =
        .error ("Failed to create operator: " ++
          ("Invalid service type '" ++ service ++ "': " ++ e)) ∧
      pg_opendal_create_dir w service path config =
        .error ("Failed to create operator: " ++
          ("Invalid service type '" ++ service ++ "': " ++ e)) ∧
      pg_opendal_copy w service source target config =
        .error ("Failed to create operator: " ++
          ("Invalid service type '" ++ service ++ "': " ++ e)) ∧
      pg_opendal_rename w service source target config =
        .error ("Failed to create operator: " ++
          ("Invalid service type '" ++ service ++ "': " ++ e)) ∧
      pg_opendal_list w service path config =
        .error ("Failed to create operator: " ++
          ("Invalid service type '" ++ service ++ "': " ++ e)) ∧
      pg_opendal_capability w service config =
        .error ("Failed to create operator: " ++
          ("Invalid service type '" ++ service ++ "': " ++ e))) := by
  constructor
  · intro e he
    simp [pg_opendal_read, pg_opendal_write, pg_opendal_exists, pg_opendal_delete,
      pg_opendal_stat, pg_opendal_create_dir, pg_opendal_copy, pg_opendal_rename,
      pg_opendal_list, pg_opendal_capability, he]
  · intro cfg e hc hf
    simp [pg_opendal_read, pg_opendal_write, pg_opendal_exists, pg_opendal_delete,
      pg_opendal_stat, pg_opendal_create_dir, pg_opendal_copy, pg_opendal_rename,
      pg_opendal_list, pg_opendal_capability, create_operator, hc, hf]

/-- C4, witness: against the concrete environment, a `null` config is
rejected at config validation and an unknown service at the registry. -/
theorem claim_c4_witness :
    pg_opendal_write worldOk "nope" "p" "c" Json.null =
      .error ("Failed to parse config: " ++ "Config must be a JSON object") ∧
    pg_opendal_write worldOk "nope" "p" "c" (Json.obj []) =
      .error ("Failed to create operator: " ++
        ("Invalid service type '" ++ "nope" ++ "': " ++ "unsupported scheme")) :=
  ⟨((claim_c4 worldOk "nope" "p" "s" "t" "c" Json.null).1
      "Config must be a JSON object" rfl).2.1,
   ((claim_c4 worldOk "nope" "p" "s" "t" "c" (Json.obj [])).2
      [] "unsupported scheme" rfl (by simp [worldOk])).2.1⟩

